import Mathlib

/-!
Verification of the Roommates guest-list backend (`app/models.py`,
`app/routes/guests.py`) against its natural-language specification.

The Python routes are shallowly embedded as pure Lean functions over an
explicit store state.  Calendar dates and clock times are embedded as
structures of natural numbers; the `datetime.strptime('%Y-%m-%d')` /
`time.fromisoformat` parsers are embedded restricted to the documented
canonical `YYYY-MM-DD` / `HH:MM:SS` input forms, which are the only forms
the API documents and the only ones the claims exercise.
-/

namespace Roommates

/-- A clock time (`datetime.time`): hours, minutes, seconds. -/
structure Time where
  hour : Nat
  minute : Nat
  second : Nat
deriving DecidableEq, Repr

/-- A valid time-of-day as `datetime.time` enforces it. -/
def Time.Valid (t : Time) : Prop :=
  t.hour < 24 ∧ t.minute < 60 ∧ t.second < 60

instance (t : Time) : Decidable t.Valid := by
  unfold Time.Valid; infer_instance

def Time.toSeconds (t : Time) : Nat :=
  t.hour * 3600 + t.minute * 60 + t.second

/-- Split a second count (below 86400) back into a time-of-day. -/
def Time.ofSeconds (n : Nat) : Time :=
  ⟨n / 3600, n % 3600 / 60, n % 60⟩

/-- A calendar date (`datetime.date`). -/
structure Date where
  year : Nat
  month : Nat
  day : Nat
deriving DecidableEq, Repr

/-- Gregorian leap-year rule used by `datetime.date`. -/
def isLeap (y : Nat) : Bool :=
  y % 4 == 0 && (y % 100 != 0 || y % 400 == 0)

/-- Length of month `m` (1-based) of year `y`; 0 for out-of-range months. -/
def daysInMonth (y : Nat) : Nat → Nat
  | 1 => 31
  | 2 => if isLeap y then 29 else 28
  | 3 => 31
  | 4 => 30
  | 5 => 31
  | 6 => 30
  | 7 => 31
  | 8 => 31
  | 9 => 30
  | 10 => 31
  | 11 => 30
  | 12 => 31
  | _ => 0

/-- A date `datetime.date` would accept. -/
def Date.Valid (d : Date) : Prop :=
  1 ≤ d.month ∧ d.month ≤ 12 ∧ 1 ≤ d.day ∧ d.day ≤ daysInMonth d.year d.month

instance (d : Date) : Decidable d.Valid := by
  unfold Date.Valid; infer_instance

/-- The calendar successor of a date (`date + timedelta(days=1)`). -/
def Date.nextDay (d : Date) : Date :=
  if d.day < daysInMonth d.year d.month then ⟨d.year, d.month, d.day + 1⟩
  else if d.month < 12 then ⟨d.year, d.month + 1, 1⟩
  else ⟨d.year + 1, 1, 1⟩

/-- Embedding of `date + timedelta(days=k)`. -/
def Date.addDays (d : Date) : Nat → Date
  | 0 => d
  | k + 1 => (d.addDays k).nextDay

/-- Days contributed by all years before `y` (proleptic Gregorian). -/
def daysBeforeYear : Nat → Nat
  | 0 => 0
  | y + 1 => daysBeforeYear y + (if isLeap y then 366 else 365)

/-- Days contributed by the months of year `y` strictly before month `m`. -/
def daysBeforeMonth (y : Nat) : Nat → Nat
  | 0 => 0
  | m + 1 => daysBeforeMonth y m + daysInMonth y m

/-- Linear day number of a date: the count of days before it. -/
def Date.ordinal (d : Date) : Nat :=
  daysBeforeYear d.year + daysBeforeMonth d.year d.month + (d.day - 1)

/-- A date-and-time as an absolute second count: the instant it denotes. -/
def dateInstant (d : Date) (t : Time) : Nat :=
  86400 * d.ordinal + t.toSeconds

/-- Value of a decimal digit character, `none` for non-digits. -/
def digit? (c : Char) : Option Nat :=
  if '0' ≤ c ∧ c ≤ '9' then some (c.toNat - 48) else none

/-- The decimal digit character for a value below 10. -/
def digitChar (v : Nat) : Char :=
  Char.ofNat (48 + v)

/-- Embedding of `time.fromisoformat` restricted to the documented canonical
`HH:MM:SS` input form used by the API. -/
def parseTime (str : String) : Option Time :=
  match str.data with
  | [a, b, c1, d, e, c2, f, g] =>
    if c1 = ':' ∧ c2 = ':' then
      match digit? a, digit? b, digit? d, digit? e, digit? f, digit? g with
      | some a', some b', some d', some e', some f', some g' =>
        if 10 * a' + b' < 24 ∧ 10 * d' + e' < 60 ∧ 10 * f' + g' < 60 then
          some ⟨10 * a' + b', 10 * d' + e', 10 * f' + g'⟩
        else none
      | _, _, _, _, _, _ => none
    else none
  | _ => none

/-- Embedding of `datetime.strptime(s, '%Y-%m-%d').date()` restricted to the documented
canonical four-digit-year `YYYY-MM-DD` input form used by the API. -/
def parseDate (str : String) : Option Date :=
  match str.data with
  | [y1, y2, y3, y4, s1, m1, m2, s2, d1, d2] =>
    if s1 = '-' ∧ s2 = '-' then
      match digit? y1, digit? y2, digit? y3, digit? y4,
            digit? m1, digit? m2, digit? d1, digit? d2 with
      | some a, some b, some c, some d, some e, some f, some g, some k =>
        if 1 ≤ 10 * e + f ∧ 10 * e + f ≤ 12 ∧ 1 ≤ 10 * g + k ∧
            10 * g + k ≤ daysInMonth (1000 * a + 100 * b + 10 * c + d) (10 * e + f) then
          some ⟨1000 * a + 100 * b + 10 * c + d, 10 * e + f, 10 * g + k⟩
        else none
      | _, _, _, _, _, _, _, _ => none
    else none
  | _ => none

/-- Embedding of `time.strftime('%H:%M:%S')`. -/
def Time.format (t : Time) : String :=
  ⟨[digitChar (t.hour / 10), digitChar (t.hour % 10), ':',
    digitChar (t.minute / 10), digitChar (t.minute % 10), ':',
    digitChar (t.second / 10), digitChar (t.second % 10)]⟩

/-- Embedding of `date.strftime('%Y-%m-%d')` for four-digit years. -/
def Date.format (d : Date) : String :=
  ⟨[digitChar (d.year / 1000 % 10), digitChar (d.year / 100 % 10),
    digitChar (d.year / 10 % 10), digitChar (d.year % 10), '-',
    digitChar (d.month / 10), digitChar (d.month % 10), '-',
    digitChar (d.day / 10), digitChar (d.day % 10)]⟩

/-- The `Guest` row of `app/models.py`.  The columns `exit_date`/`exit_time`
are modelled from the spec: the routes call `Guest.set_exit_time`, which is
absent from the provided model source, and the spec states the record
"additionally stores a derived exit instant ... split back into an exit date
and exit time-of-day". -/
structure Guest where
  id : Nat
  guest_type_id : Int
  inviter_id : Int
  coming_date : Date
  coming_time : Time
  stay_time : Time
  exit_date : Date
  exit_time : Time
  comment : Option String
deriving DecidableEq, Repr

/-- Modelled from the spec: `Guest.set_exit_time` is called by the routes on
create and update but is absent from the provided `app/models.py`.  Per the
spec it stores the original `stay_time` input duration on the record (the
serialized `stay_time` "is the original input duration") and derives the
exit instant as arrival instant + `stay_time` duration, "handling overflow
past 24:00:00 into the next calendar date(s)". -/
def Guest.set_exit_time (g : Guest) (coming_date : Date)
    (coming_time stay_time : Time) : Guest :=
  let total := coming_time.toSeconds + stay_time.toSeconds
  { g with stay_time := stay_time,
           exit_date := coming_date.addDays (total / 86400),
           exit_time := Time.ofSeconds (total % 86400) }

/-- The serialized guest JSON object produced by `Guest.to_dict`. -/
structure GuestDict where
  id : Nat
  guest_type_id : Int
  inviter_id : Int
  coming_date : String
  coming_time : String
  stay_time : String
  comment : Option String
deriving DecidableEq, Repr

/-- Embedding of `Guest.to_dict` from `app/models.py`: serializes the row, formatting the
date and times with `strftime`; the derived exit fields are not exposed. -/
def Guest.to_dict (g : Guest) : GuestDict :=
  { id := g.id,
    guest_type_id := g.guest_type_id,
    inviter_id := g.inviter_id,
    coming_date := g.coming_date.format,
    coming_time := g.coming_time.format,
    stay_time := g.stay_time.format,
    comment := g.comment }

/-- The persistent store visible to the guest routes: the guest-type
registry, the guest table, and the next primary key the store assigns. -/
structure DB where
  guest_types : List Int
  guests : List Guest
  next_id : Nat
deriving DecidableEq, Repr

/-- A JSON request body for POST/PUT `/guests`, with the fields the routes
read (`data['...']`).  `comment` may be JSON null (`none`). -/
structure GuestPayload where
  guest_type_id : Int
  inviter_id : Int
  coming_date : String
  coming_time : String
  stay_time : String
  comment : Option String
deriving DecidableEq, Repr

/-- Modelled from the spec: `GuestSchema.validate` (module
`schemas.guest_schema`) is imported by the routes but its source is not
among the provided files.  Per the spec it returns a map of field→message
errors, empty exactly when the payload is valid: semantically valid
date/time strings, a `guest_type_id` referencing an existing GuestType, and
`comment` length at most 255.  The `existing_guest_id` parameter is
documented as reserved with no effect (no uniqueness constraints exist on
Guest). -/
def guest_schema_validate (guest_types : List Int) (data : GuestPayload)
    (existing_guest_id : Option Nat) : List String :=
  let _ := existing_guest_id
  (if (parseDate data.coming_date).isNone then ["coming_date"] else []) ++
  (if (parseTime data.coming_time).isNone then ["coming_time"] else []) ++
  (if (parseTime data.stay_time).isNone then ["stay_time"] else []) ++
  (if guest_types.contains data.guest_type_id then [] else ["guest_type_id"]) ++
  (match data.comment with
   | some c => if c.length ≤ 255 then [] else ["comment"]
   | none => [])

/-- Outcome of `create_guest`: 201 with the serialized guest, 400 with the
validation error map, or an unhandled exception (HTTP 500). -/
inductive CreateRes
  | created (g : GuestDict)
  | badRequest (errors : List String)
  | serverError
deriving DecidableEq, Repr

def CreateRes.isSuccess : CreateRes → Bool
  | .created _ => true
  | _ => false

/-- Outcome of `update_guest`: 200 with the serialized guest, 404
`{error: 'Guest not found'}`, 403 `{error: 'Access denied'}`, 400 with the
validation error map, or an unhandled exception (HTTP 500). -/
inductive UpdateRes
  | ok (g : GuestDict)
  | notFound
  | accessDenied
  | badRequest (errors : List String)
  | serverError
deriving DecidableEq, Repr

def UpdateRes.isSuccess : UpdateRes → Bool
  | .ok _ => true
  | _ => false

/-- Outcome of `delete_guest`: 204 empty body, 404
`{error: 'Guest not found'}`, or 403 `{error: 'Access denied'}`. -/
inductive DeleteRes
  | noContent
  | notFound
  | accessDenied
deriving DecidableEq, Repr

def DeleteRes.isSuccess : DeleteRes → Bool
  | .noContent => true
  | _ => false

/-- Embedding of `create_guest` from `app/routes/guests.py`.  `caller` is the JWT
identity; the route overwrites `data['inviter_id']` with it before
validating.  Returns the HTTP outcome and the store state after the call. -/
def create_guest (caller : Int) (body : GuestPayload) (st : DB) :
    CreateRes × DB :=
  let data := { body with inviter_id := caller }
  let errors := guest_schema_validate st.guest_types data none
  if errors ≠ [] then (.badRequest errors, st)
  else
    match parseDate data.coming_date, parseTime data.coming_time,
          parseTime data.stay_time with
    | some coming_date, some coming_time, some stay_time =>
      -- The Python constructor does not set `stay_time`; the modelled
      -- `set_exit_time` assigns it together with the exit fields.
      let new_guest : Guest :=
        { id := st.next_id,
          guest_type_id := data.guest_type_id,
          inviter_id := data.inviter_id,
          coming_date := coming_date,
          coming_time := coming_time,
          stay_time := ⟨0, 0, 0⟩,
          exit_date := coming_date,
          exit_time := coming_time,
          comment := data.comment }
      let new_guest := new_guest.set_exit_time coming_date coming_time stay_time
      (.created new_guest.to_dict,
       { st with guests := st.guests ++ [new_guest], next_id := st.next_id + 1 })
    | _, _, _ => (.serverError, st)

/-- Embedding of `update_guest` from `app/routes/guests.py`.  Note the route assigns
`guest.inviter_id = data['inviter_id']` straight from the request body — it
does not overwrite the body's inviter with the JWT identity as the create
route does. -/
def update_guest (caller : Int) (guest_id : Nat) (body : GuestPayload)
    (st : DB) : UpdateRes × DB :=
  match st.guests.find? (fun g => g.id == guest_id) with
  | none => (.notFound, st)
  | some guest =>
    if caller ≠ guest.inviter_id then (.accessDenied, st)
    else
      let errors := guest_schema_validate st.guest_types body (some guest_id)
      if errors ≠ [] then (.badRequest errors, st)
      else
        match parseDate body.coming_date, parseTime body.coming_time,
              parseTime body.stay_time with
        | some coming_date, some coming_time, some stay_time =>
          let guest1 := { guest with guest_type_id := body.guest_type_id,
                                     inviter_id := body.inviter_id,
                                     coming_date := coming_date,
                                     coming_time := coming_time }
          let guest2 := guest1.set_exit_time coming_date coming_time stay_time
          let guest3 := { guest2 with comment := body.comment }
          (.ok guest3.to_dict,
           { st with guests :=
               st.guests.map (fun g => if g.id == guest_id then guest3 else g) })
        | _, _, _ => (.serverError, st)

/-- Embedding of `delete_guest` from `app/routes/guests.py`. -/
def delete_guest (caller : Int) (guest_id : Nat) (st : DB) :
    DeleteRes × DB :=
  match st.guests.find? (fun g => g.id == guest_id) with
  | none => (.notFound, st)
  | some guest =>
    if caller ≠ guest.inviter_id then (.accessDenied, st)
    else (.noContent, { st with guests := st.guests.filter (fun g => g.id != guest_id) })

/-- Query parameters of GET `/guests` after Flask's `request.args.get`
conversions: `page`/`per_page` arrive defaulted (1 and 10) as ints, the
filters as `None` when absent. -/
structure ListArgs where
  page : Int
  per_page : Int
  inviter_id : Option Int
  guest_type_id : Option Int
  start_date : Option String
  end_date : Option String
deriving DecidableEq, Repr

/-- Failure modes of GET `/guests`: the 404 raised by
`flask_sqlalchemy`'s `db.paginate` (`error_out=True` aborts with 404 when
`page` or `per_page` is below 1 or a page past the end is requested), the
`AttributeError` raised by the route's reference to the nonexistent column
`Guest.start_date` (HTTP 500), and the `ValueError` raised by
`datetime.strptime` on a malformed date string (HTTP 500). -/
inductive GErr
  | notFound
  | attributeError
  | valueError
deriving DecidableEq, Repr

/-- Successful GET `/guests` response body. -/
structure ListResult where
  guests : List GuestDict
  total_guests : Nat
  prev_page : Option Int
  next_page : Option Int
deriving DecidableEq, Repr

/-- The filter portion of `get_guests`: each query-string filter adds a
`where` clause only when its value is truthy (Python `if inviter_id:` is
false for both `None` and `0`).  The two date blocks are translated exactly
as written in the source: both are guarded by `if start_date_str:` (the
second block's guard tests `start_date_str`, not `end_date_str`), and the
first block's clause references `Guest.start_date`, a column that does not
exist on the model, so reaching it raises `AttributeError`. -/
def filtered_rows (args : ListArgs) (guests : List Guest) :
    Except GErr (List Guest) :=
  let rows1 :=
    match args.inviter_id with
    | some v => if v ≠ 0 then guests.filter (fun g => g.inviter_id == v) else guests
    | none => guests
  let rows2 :=
    match args.guest_type_id with
    | some v => if v ≠ 0 then rows1.filter (fun g => g.guest_type_id == v) else rows1
    | none => rows1
  match args.start_date with
  | some str =>
    -- `datetime.strptime(start_date_str, '%Y-%m-%d')` runs first, then the
    -- `where` clause evaluates `Guest.start_date` and raises.
    match parseDate str with
    | some _ => Except.error .attributeError
    | none => Except.error .valueError
  | none =>
    -- The end-date block is guarded by `if start_date_str:` as well, so
    -- with no start_date it is skipped and `end_date` is never consulted.
    Except.ok rows2

/-- Embedding of `Pagination.pages` of flask_sqlalchemy: `ceil(total / per_page)`,
0 when there are no rows. -/
def pages_count (total : Nat) (per_page : Int) : Int :=
  ((total + per_page.toNat - 1) / per_page.toNat : Nat)

/-- Embedding of `get_guests` from `app/routes/guests.py`.  `db.paginate` is embedded
with the documented flask_sqlalchemy semantics (`error_out=True`): abort 404
when `page < 1` or `per_page < 1` or when the selected slice is empty and
`page != 1`; `total` is the count of all matching rows; `has_prev` is
`page > 1` and `has_next` is `page < pages`, with `prev_num`/`next_num`
being `page - 1`/`page + 1`. -/
def get_guests (args : ListArgs) (st : DB) : Except GErr ListResult :=
  match filtered_rows args st.guests with
  | .error e => .error e
  | .ok rows =>
    if args.page < 1 then .error .notFound
    else if args.per_page < 1 then .error .notFound
    else
      let items := (rows.drop ((args.page - 1) * args.per_page).toNat).take
        args.per_page.toNat
      if items = [] ∧ args.page ≠ 1 then .error .notFound
      else
        let total := rows.length
        let prev_page := if 1 < args.page then some (args.page - 1) else none
        let next_page :=
          if args.page < pages_count total args.per_page then some (args.page + 1)
          else none
        .ok { guests := items.map Guest.to_dict,
              total_guests := total,
              prev_page := prev_page,
              next_page := next_page }

/-- The guest row `create_guest` persists, given the parsed field values:
the constructed row with the caller as inviter, passed through
`set_exit_time`. -/
def made_guest (caller : Int) (body : GuestPayload) (st : DB)
    (cd : Date) (ct stt : Time) : Guest :=
  Guest.set_exit_time
    { id := st.next_id,
      guest_type_id := body.guest_type_id,
      inviter_id := caller,
      coming_date := cd,
      coming_time := ct,
      stay_time := ⟨0, 0, 0⟩,
      exit_date := cd,
      exit_time := ct,
      comment := body.comment } cd ct stt

/-- The guest row `update_guest` persists in place of `guest`, given the
parsed field values. -/
def updated_guest (body : GuestPayload) (guest : Guest)
    (cd : Date) (ct stt : Time) : Guest :=
  { Guest.set_exit_time
      { guest with guest_type_id := body.guest_type_id,
                   inviter_id := body.inviter_id,
                   coming_date := cd,
                   coming_time := ct } cd ct stt
    with comment := body.comment }

/-! ### Sample data used by the concrete witnesses -/

/-- A create/update payload whose stay crosses midnight; note its
`inviter_id` (5) differs from the identities the witnesses call with. -/
def body0 : GuestPayload :=
  { guest_type_id := 1, inviter_id := 5, coming_date := "2024-03-10",
    coming_time := "23:00:00", stay_time := "02:30:00", comment := some "hi" }

/-- An empty store knowing guest type 1. -/
def db0 : DB := { guest_types := [1], guests := [], next_id := 1 }

/-- A stored guest owned by inviter 1. -/
def guest1 : Guest :=
  { id := 1, guest_type_id := 1, inviter_id := 1, coming_date := ⟨2024, 1, 1⟩,
    coming_time := ⟨10, 0, 0⟩, stay_time := ⟨1, 0, 0⟩, exit_date := ⟨2024, 1, 1⟩,
    exit_time := ⟨11, 0, 0⟩, comment := none }

/-- A store holding `guest1`. -/
def db1 : DB := { guest_types := [1], guests := [guest1], next_id := 2 }

/-- A valid payload that names inviter 2 — not the owner of `guest1`. -/
def body9 : GuestPayload :=
  { guest_type_id := 1, inviter_id := 2, coming_date := "2024-01-01",
    coming_time := "10:00:00", stay_time := "01:00:00", comment := none }

/-- A stored guest arriving 2024-02-01 — outside [_, 2024-01-05]. -/
def guest3 : Guest :=
  { id := 1, guest_type_id := 1, inviter_id := 1, coming_date := ⟨2024, 2, 1⟩,
    coming_time := ⟨10, 0, 0⟩, stay_time := ⟨1, 0, 0⟩, exit_date := ⟨2024, 2, 1⟩,
    exit_time := ⟨11, 0, 0⟩, comment := none }

/-- A store holding only `guest3`. -/
def db3 : DB := { guest_types := [1], guests := [guest3], next_id := 2 }

/-- A store holding three guests, ids 1..3. -/
def dbP : DB :=
  { guest_types := [1],
    guests := [{ guest3 with id := 1 }, { guest3 with id := 2 }, { guest3 with id := 3 }],
    next_id := 4 }

/-- An invalid payload: guest type 99 is not registered. -/
def bodyBad : GuestPayload :=
  { guest_type_id := 99, inviter_id := 1, coming_date := "2024-01-01",
    coming_time := "10:00:00", stay_time := "01:00:00", comment := none }

/-! ### Arithmetic facts about the date/time embedding -/

theorem digit?_spec {c : Char} {v : Nat} (h : digit? c = some v) :
    digitChar v = c ∧ v < 10 := by
  unfold digit? at h
  split at h
  case isFalse => exact absurd h (by simp)
  case isTrue hc =>
    obtain rfl := Option.some.inj h
    obtain ⟨h1, h2⟩ := hc
    have hl : 48 ≤ c.toNat := h1
    have hr : c.toNat ≤ 57 := h2
    constructor
    · show Char.ofNat (48 + (c.toNat - 48)) = c
      rw [show 48 + (c.toNat - 48) = c.toNat by omega, Char.ofNat_toNat]
    · omega

theorem parseTime_shape {str : String} {t : Time} (h : parseTime str = some t) :
    Time.format t = str ∧ t.Valid := by
  unfold parseTime at h
  split at h
  case h_2 => exact absurd h (by simp)
  case h_1 a b c1 d e c2 f g hdata =>
    split at h
    case isFalse => exact absurd h (by simp)
    case isTrue hc =>
      split at h
      case h_2 => exact absurd h (by simp)
      case h_1 a' b' d' e' f' g' ha hb hd he hf hg =>
        split at h
        case isFalse => exact absurd h (by simp)
        case isTrue hlt =>
          obtain ⟨hc1, hc2⟩ := hc
          obtain ⟨ha1, ha2⟩ := digit?_spec ha
          obtain ⟨hb1, hb2⟩ := digit?_spec hb
          obtain ⟨hd1, hd2⟩ := digit?_spec hd
          obtain ⟨he1, he2⟩ := digit?_spec he
          obtain ⟨hf1, hf2⟩ := digit?_spec hf
          obtain ⟨hg1, hg2⟩ := digit?_spec hg
          obtain rfl := Option.some.inj h
          constructor
          · cases str with
            | mk data =>
              simp only [String.data] at hdata
              subst hdata hc1 hc2
              show String.mk _ = String.mk _
              have e1 : (10 * a' + b') / 10 = a' := by omega
              have e2 : (10 * a' + b') % 10 = b' := by omega
              have e3 : (10 * d' + e') / 10 = d' := by omega
              have e4 : (10 * d' + e') % 10 = e' := by omega
              have e5 : (10 * f' + g') / 10 = f' := by omega
              have e6 : (10 * f' + g') % 10 = g' := by omega
              simp only [Time.format, e1, e2, e3, e4, e5, e6,
                ha1, hb1, hd1, he1, hf1, hg1]
          · exact hlt

theorem parseTime_format {str : String} {t : Time} (h : parseTime str = some t) :
    Time.format t = str :=
  (parseTime_shape h).1

theorem parseTime_valid {str : String} {t : Time} (h : parseTime str = some t) :
    t.Valid :=
  (parseTime_shape h).2

theorem parseDate_valid {str : String} {d : Date} (h : parseDate str = some d) :
    d.Valid := by
  unfold parseDate at h
  split at h
  case h_2 => exact absurd h (by simp)
  case h_1 =>
    split at h
    case isFalse => exact absurd h (by simp)
    case isTrue =>
      split at h
      case h_2 => exact absurd h (by simp)
      case h_1 =>
        split at h
        case isFalse => exact absurd h (by simp)
        case isTrue hv =>
          obtain rfl := Option.some.inj h
          exact hv

theorem Time.toSeconds_ofSeconds {n : Nat} (h : n < 86400) :
    (Time.ofSeconds n).toSeconds = n := by
  simp only [Time.ofSeconds, Time.toSeconds]
  omega

theorem Time.ofSeconds_valid {n : Nat} (h : n < 86400) :
    (Time.ofSeconds n).Valid := by
  simp only [Time.ofSeconds, Time.Valid]
  omega

theorem Time.toSeconds_lt {t : Time} (h : t.Valid) : t.toSeconds < 86400 := by
  obtain ⟨h1, h2, h3⟩ := h
  simp only [Time.toSeconds]
  omega

theorem one_le_daysInMonth {y m : Nat} (h1 : 1 ≤ m) (h2 : m ≤ 12) :
    1 ≤ daysInMonth y m := by
  interval_cases m <;> simp only [daysInMonth] <;> first | omega | (split <;> omega)

theorem daysBeforeMonth_twelve (y : Nat) :
    daysBeforeMonth y 12 + daysInMonth y 12 = if isLeap y then 366 else 365 := by
  cases h : isLeap y <;> simp [daysBeforeMonth, daysInMonth, h]

theorem Date.valid_nextDay {d : Date} (h : d.Valid) : d.nextDay.Valid := by
  obtain ⟨y, m, day⟩ := d
  simp only [Date.Valid] at h
  obtain ⟨h1, h2, h3, h4⟩ := h
  simp only [Date.nextDay]
  split
  case isTrue hlt =>
    simp only [Date.Valid]
    omega
  case isFalse hge =>
    split
    case isTrue hm =>
      simp only [Date.Valid]
      exact ⟨by omega, by omega, le_refl 1, one_le_daysInMonth (by omega) (by omega)⟩
    case isFalse hm =>
      simp only [Date.Valid]
      refine ⟨by omega, by omega, le_refl 1, ?_⟩
      show 1 ≤ daysInMonth (y + 1) 1
      simp only [daysInMonth]
      omega

theorem Date.ordinal_nextDay {d : Date} (h : d.Valid) :
    d.nextDay.ordinal = d.ordinal + 1 := by
  obtain ⟨y, m, day⟩ := d
  simp only [Date.Valid] at h
  obtain ⟨h1, h2, h3, h4⟩ := h
  simp only [Date.nextDay]
  split
  case isTrue hlt =>
    simp only [Date.ordinal]
    omega
  case isFalse hge =>
    rw [not_lt] at hge
    split
    case isTrue hm =>
      have hsucc : daysBeforeMonth y (m + 1)
          = daysBeforeMonth y m + daysInMonth y m := rfl
      simp only [Date.ordinal]
      omega
    case isFalse hm =>
      rw [not_lt] at hm
      have hm12 : m = 12 := by omega
      subst hm12
      have h31 : daysInMonth y 12 = 31 := rfl
      have h12 := daysBeforeMonth_twelve y
      have hbm1 : daysBeforeMonth (y + 1) 1 = 0 := rfl
      have hy : daysBeforeYear (y + 1)
          = daysBeforeYear y + (if isLeap y then 366 else 365) := rfl
      simp only [Date.ordinal]
      omega

theorem Date.valid_addDays {d : Date} (h : d.Valid) (k : Nat) :
    (d.addDays k).Valid := by
  induction k with
  | zero => exact h
  | succ k ih => exact Date.valid_nextDay ih

theorem Date.ordinal_addDays {d : Date} (h : d.Valid) (k : Nat) :
    (d.addDays k).ordinal = d.ordinal + k := by
  induction k with
  | zero => rfl
  | succ k ih =>
    have := Date.ordinal_nextDay (Date.valid_addDays h k)
    simp only [Date.addDays]
    omega

/-- The instant denoted by the derived exit fields is the arrival instant
plus the stay duration in seconds. -/
theorem exit_instant_eq {cd : Date} (ct stt : Time) (hcd : cd.Valid) :
    dateInstant (cd.addDays ((ct.toSeconds + stt.toSeconds) / 86400))
        (Time.ofSeconds ((ct.toSeconds + stt.toSeconds) % 86400))
      = dateInstant cd ct + stt.toSeconds := by
  have h1 := Date.ordinal_addDays hcd ((ct.toSeconds + stt.toSeconds) / 86400)
  have h2 : (ct.toSeconds + stt.toSeconds) % 86400 < 86400 := by omega
  simp only [dateInstant, h1, Time.toSeconds_ofSeconds h2]
  omega

/-! ### Inversion lemmas for the command routes -/

theorem create_guest_created {caller : Int} {body : GuestPayload} {st : DB}
    {out : GuestDict} {st' : DB}
    (h : create_guest caller body st = (.created out, st')) :
    ∃ cd ct stt, parseDate body.coming_date = some cd ∧
      parseTime body.coming_time = some ct ∧
      parseTime body.stay_time = some stt ∧
      out = (made_guest caller body st cd ct stt).to_dict ∧
      st' = { st with
              guests := st.guests ++ [made_guest caller body st cd ct stt],
              next_id := st.next_id + 1 } := by
  simp only [create_guest] at h
  split at h
  case isTrue => simp at h
  case isFalse herr =>
    split at h
    case h_1 cd ct stt hcd hct hst =>
      injection h with h1 h2
      injection h1 with h1
      exact ⟨cd, ct, stt, hcd, hct, hst, h1.symm, h2.symm⟩
    case h_2 => simp at h

theorem update_guest_ok {caller : Int} {gid : Nat} {body : GuestPayload}
    {st : DB} {out : GuestDict} {st' : DB}
    (h : update_guest caller gid body st = (.ok out, st')) :
    ∃ guest cd ct stt,
      st.guests.find? (fun g => g.id == gid) = some guest ∧
      parseDate body.coming_date = some cd ∧
      parseTime body.coming_time = some ct ∧
      parseTime body.stay_time = some stt ∧
      out = (updated_guest body guest cd ct stt).to_dict ∧
      st' = { st with
              guests := st.guests.map
                (fun g => if g.id == gid then updated_guest body guest cd ct stt else g) } := by
  simp only [update_guest] at h
  split at h
  case h_1 => simp at h
  case h_2 guest hfind =>
    split at h
    case isTrue => simp at h
    case isFalse hown =>
      split at h
      case isTrue => simp at h
      case isFalse herr =>
        split at h
        case h_1 cd ct stt hcd hct hst =>
          injection h with h1 h2
          injection h1 with h1
          exact ⟨guest, cd, ct, stt, hfind, hcd, hct, hst, h1.symm, h2.symm⟩
        case h_2 => simp at h

/-! ### Claim theorems -/

/-- Claim C1: for every valid create or update payload, the stored Guest's
derived exit instant equals the arrival instant (`coming_date` +
`coming_time`) plus the `stay_time` duration, with overflow past 24:00:00
carried into the next calendar date(s).  Stated over the derived-exit model
(`Guest.set_exit_time` is modelled from the spec): the instant denoted by
the stored exit date/time equals the instant denoted by the stored arrival
date/time plus the stored stay duration in seconds. -/
theorem exit_time_derivation (caller : Int) (gid : Nat) (body : GuestPayload)
    (st : DB) :
    (∀ out st', create_guest caller body st = (.created out, st') →
      ∃ g, st'.guests = st.guests ++ [g] ∧
        dateInstant g.exit_date g.exit_time
          = dateInstant g.coming_date g.coming_time + g.stay_time.toSeconds) ∧
    (∀ out st', update_guest caller gid body st = (.ok out, st') →
      ∃ g, g ∈ st'.guests ∧ out = g.to_dict ∧
        dateInstant g.exit_date g.exit_time
          = dateInstant g.coming_date g.coming_time + g.stay_time.toSeconds) := by
  constructor
  · intro out st' h
    obtain ⟨cd, ct, stt, hcd, hct, hst, hout, hst'⟩ := create_guest_created h
    subst hst'
    refine ⟨made_guest caller body st cd ct stt, rfl, ?_⟩
    show dateInstant (cd.addDays ((ct.toSeconds + stt.toSeconds) / 86400))
        (Time.ofSeconds ((ct.toSeconds + stt.toSeconds) % 86400))
      = dateInstant cd ct + stt.toSeconds
    exact exit_instant_eq ct stt (parseDate_valid hcd)
  · intro out st' h
    obtain ⟨guest, cd, ct, stt, hfind, hcd, hct, hst, hout, hst'⟩ := update_guest_ok h
    subst hst'
    refine ⟨updated_guest body guest cd ct stt, ?_, hout, ?_⟩
    · have hmem := List.mem_of_find?_eq_some hfind
      have hpred := List.find?_some hfind
      have hmap := List.mem_map_of_mem
        (fun g => if g.id == gid then updated_guest body guest cd ct stt else g) hmem
      simpa [hpred] using hmap
    · show dateInstant (cd.addDays ((ct.toSeconds + stt.toSeconds) / 86400))
          (Time.ofSeconds ((ct.toSeconds + stt.toSeconds) % 86400))
        = dateInstant cd ct + stt.toSeconds
      exact exit_instant_eq ct stt (parseDate_valid hcd)

/-- Witness for `exit_time_derivation`: a concrete create whose stay
crosses midnight (coming 2024-03-10 23:00:00, stay 02:30:00); the stored
exit is 01:30:00 on 2024-03-11, the next calendar date. -/
theorem exit_time_derivation_witness :
    (∃ g, (create_guest 7 body0 db0).2.guests = db0.guests ++ [g] ∧
      dateInstant g.exit_date g.exit_time
        = dateInstant g.coming_date g.coming_time + g.stay_time.toSeconds) ∧
    (create_guest 7 body0 db0).2.guests.map (fun g => (g.exit_date, g.exit_time))
      = [(⟨2024, 3, 11⟩, ⟨1, 30, 0⟩)] :=
  ⟨(exit_time_derivation 7 0 body0 db0).1 _ _ rfl, rfl⟩

/-- Claim C2: for every successful `create_guest` call, the persisted
Guest's `inviter_id` equals the authenticated caller's identity, for every
payload, including payloads supplying a different `inviter_id` (the route
overwrites `data['inviter_id']` before validating and persisting). -/
theorem create_forces_inviter (caller : Int) (body : GuestPayload) (st : DB) :
    ∀ out st', create_guest caller body st = (.created out, st') →
      ∃ g, st'.guests = st.guests ++ [g] ∧ g.inviter_id = caller ∧
        out.inviter_id = caller := by
  intro out st' h
  obtain ⟨cd, ct, stt, hcd, hct, hst, hout, hst'⟩ := create_guest_created h
  subst hst' hout
  exact ⟨made_guest caller body st cd ct stt, rfl, rfl, rfl⟩

/-- Witness for `create_forces_inviter`: caller 7 creates with a payload
naming inviter 5; the stored guest's inviter is 7. -/
theorem create_forces_inviter_witness :
    body0.inviter_id = 5 ∧
    ∃ g, (create_guest 7 body0 db0).2.guests = db0.guests ++ [g] ∧
      g.inviter_id = 7 ∧ ((create_guest 7 body0 db0).1 ≠ .serverError) :=
  ⟨rfl, by
    obtain ⟨g, hg, hinv, _⟩ := create_forces_inviter 7 body0 db0 _ _ rfl
    exact ⟨g, hg, hinv, by decide⟩⟩

/-- Claim C8: for every Guest created or updated from a payload, the
serialized guest JSON's `stay_time` field equals the payload's original
`stay_time` input string (it round-trips as `HH:MM:SS`), not the derived
exit time. -/
theorem stay_time_roundtrip (caller : Int) (gid : Nat) (body : GuestPayload)
    (st : DB) :
    (∀ out st', create_guest caller body st = (.created out, st') →
      out.stay_time = body.stay_time) ∧
    (∀ out st', update_guest caller gid body st = (.ok out, st') →
      out.stay_time = body.stay_time) := by
  constructor
  · intro out st' h
    obtain ⟨cd, ct, stt, hcd, hct, hst, hout, hst'⟩ := create_guest_created h
    subst hout
    show Time.format stt = body.stay_time
    exact parseTime_format hst
  · intro out st' h
    obtain ⟨guest, cd, ct, stt, hfind, hcd, hct, hst, hout, hst'⟩ := update_guest_ok h
    subst hout
    show Time.format stt = body.stay_time
    exact parseTime_format hst

/-- Witness for `stay_time_roundtrip`: the create of `body0` serializes
`stay_time` back as the input string `"02:30:00"`, while the derived exit
time is 01:30:00. -/
theorem stay_time_roundtrip_witness :
    (∃ out st', create_guest 7 body0 db0 = (.created out, st') ∧
      out.stay_time = "02:30:00") ∧
    (create_guest 7 body0 db0).2.guests.map Guest.exit_time = [⟨1, 30, 0⟩] :=
  ⟨⟨_, _, rfl, (stay_time_roundtrip 7 0 body0 db0).1 _ _ rfl⟩, rfl⟩

/-- Claim C5: for update and delete, when the guest exists but the caller's
identity differs from the guest's `inviter_id`, the operation fails with
403 `{error: 'Access denied'}` (not 404); when the guest does not exist it
fails with 404 `{error: 'Guest not found'}`.  Both failure paths leave the
store unchanged. -/
theorem ownership_errors (caller : Int) (gid : Nat) (body : GuestPayload)
    (st : DB) :
    (∀ g, st.guests.find? (fun x => x.id == gid) = some g →
      caller ≠ g.inviter_id →
      update_guest caller gid body st = (.accessDenied, st) ∧
      delete_guest caller gid st = (.accessDenied, st)) ∧
    (st.guests.find? (fun x => x.id == gid) = none →
      update_guest caller gid body st = (.notFound, st) ∧
      delete_guest caller gid st = (.notFound, st)) := by
  constructor
  · intro g hfind hne
    constructor
    · simp only [update_guest, hfind]
      rw [if_pos hne]
    · simp only [delete_guest, hfind]
      rw [if_pos hne]
  · intro hfind
    constructor
    · simp only [update_guest, hfind]
    · simp only [delete_guest, hfind]

/-- Witness for `ownership_errors`: caller 2 on `guest1` (owned by 1) gets
403 from both update and delete; on the absent id 99 both give 404. -/
theorem ownership_errors_witness :
    (update_guest 2 1 body0 db1 = (.accessDenied, db1) ∧
     delete_guest 2 1 db1 = (.accessDenied, db1)) ∧
    (update_guest 2 99 body0 db1 = (.notFound, db1) ∧
     delete_guest 2 99 db1 = (.notFound, db1)) :=
  ⟨(ownership_errors 2 1 body0 db1).1 guest1 rfl (by decide),
   (ownership_errors 2 99 body0 db1).2 rfl⟩

/-- Claim C7: every failing create, update or delete leaves the store
unchanged — validation and ownership checks happen before any mutation, and
no partial write is persisted on any failure path. -/
theorem no_write_on_failure (caller : Int) (gid : Nat) (body : GuestPayload)
    (st : DB) :
    ((create_guest caller body st).1.isSuccess = false →
      (create_guest caller body st).2 = st) ∧
    ((update_guest caller gid body st).1.isSuccess = false →
      (update_guest caller gid body st).2 = st) ∧
    ((delete_guest caller gid st).1.isSuccess = false →
      (delete_guest caller gid st).2 = st) := by
  refine ⟨?_, ?_, ?_⟩
  · simp only [create_guest]
    split
    · intro _
      rfl
    · split
      · intro hfalse
        simp [CreateRes.isSuccess] at hfalse
      · intro _
        rfl
  · simp only [update_guest]
    split
    · intro _
      rfl
    · split
      · intro _
        rfl
      · split
        · intro _
          rfl
        · split
          · intro hfalse
            simp [UpdateRes.isSuccess] at hfalse
          · intro _
            rfl
  · simp only [delete_guest]
    split
    · intro _
      rfl
    · split
      · intro _
        rfl
      · intro hfalse
        simp [DeleteRes.isSuccess] at hfalse

/-- Witness for `no_write_on_failure`: a create rejected by validation
(unknown guest type), an update rejected by the ownership check, and a
delete of an absent id each leave their store untouched. -/
theorem no_write_on_failure_witness :
    (create_guest 1 bodyBad db0).2 = db0 ∧
    (update_guest 2 1 body0 db1).2 = db1 ∧
    (delete_guest 1 99 db1).2 = db1 :=
  ⟨(no_write_on_failure 1 0 bodyBad db0).1 rfl,
   (no_write_on_failure 2 1 body0 db1).2.1 rfl,
   (no_write_on_failure 1 99 body0 db1).2.2 rfl⟩

/-- Claim C9 is violated by the code: `update_guest` assigns
`guest.inviter_id = data['inviter_id']` straight from the request body
(unlike `create_guest`, it never overwrites the body's inviter with the JWT
identity).  Here the owner (identity 1) updates their guest with a payload
naming inviter 2: the update succeeds and the stored guest's owner becomes
2, so `inviter_id` is not unchanged by the update. -/
theorem update_overwrites_inviter_bug :
    guest1.inviter_id = 1 ∧
    body9.inviter_id = 2 ∧
    (update_guest 1 1 body9 db1).1.isSuccess = true ∧
    (update_guest 1 1 body9 db1).2.guests.map Guest.inviter_id = [2] := by
  decide

/-- Claim C4: for every successful listing, `prev_page` is `none` exactly
on page 1 and `page - 1` otherwise; `next_page` is `none` exactly on the
last page (`pages_count ≤ page`) and `page + 1` otherwise; and
`total_guests` is the count of all rows matching the filters
(`filtered_rows` receives neither `page` nor `per_page`, so the count is
independent of them). -/
theorem pagination_correct (args : ListArgs) (st : DB) (r : ListResult)
    (h : get_guests args st = .ok r) :
    ∃ rows, filtered_rows args st.guests = .ok rows ∧
      r.total_guests = rows.length ∧
      (r.prev_page = none ↔ args.page = 1) ∧
      (args.page ≠ 1 → r.prev_page = some (args.page - 1)) ∧
      (r.next_page = none ↔ pages_count rows.length args.per_page ≤ args.page) ∧
      (args.page < pages_count rows.length args.per_page →
        r.next_page = some (args.page + 1)) := by
  simp only [get_guests] at h
  split at h
  case h_1 => simp at h
  case h_2 rows hrows =>
    split at h
    case isTrue => simp at h
    case isFalse hpage =>
      split at h
      case isTrue => simp at h
      case isFalse hper =>
        split at h
        case isTrue => simp at h
        case isFalse hempty =>
          injection h with h
          subst h
          rw [not_lt] at hpage
          refine ⟨rows, hrows, rfl, ?_, ?_, ?_, ?_⟩
          · show (if 1 < args.page then some (args.page - 1) else none) = none
              ↔ args.page = 1
            split <;> simp <;> omega
          · intro hne
            show (if 1 < args.page then some (args.page - 1) else none)
              = some (args.page - 1)
            rw [if_pos (by omega)]
          · show (if args.page < pages_count rows.length args.per_page
                then some (args.page + 1) else none) = none
              ↔ pages_count rows.length args.per_page ≤ args.page
            split <;> simp <;> omega
          · intro hlt
            show (if args.page < pages_count rows.length args.per_page
                then some (args.page + 1) else none) = some (args.page + 1)
            rw [if_pos hlt]

/-- Listing arguments used by the pagination witness: page 2 of 3 rows at
one row per page. -/
def argsP : ListArgs :=
  { page := 2, per_page := 1, inviter_id := none, guest_type_id := none,
    start_date := none, end_date := none }

/-- The response `get_guests argsP dbP` actually returns. -/
def resP : ListResult :=
  { guests := [Guest.to_dict { guest3 with id := 2 }], total_guests := 3,
    prev_page := some 1, next_page := some 3 }

/-- Witness for `pagination_correct`: page 2 of three rows at `per_page`
1 has `prev_page` 1, `next_page` 3 and `total_guests` 3. -/
theorem pagination_correct_witness :
    ∃ rows, filtered_rows argsP dbP.guests = .ok rows ∧
      resP.total_guests = rows.length ∧
      (resP.prev_page = none ↔ argsP.page = 1) ∧
      (argsP.page ≠ 1 → resP.prev_page = some (argsP.page - 1)) ∧
      (resP.next_page = none ↔ pages_count rows.length argsP.per_page ≤ argsP.page) ∧
      (argsP.page < pages_count rows.length argsP.per_page →
        resP.next_page = some (argsP.page + 1)) :=
  pagination_correct argsP dbP resP rfl

/-- Listing arguments with a non-positive page. -/
def args6 : ListArgs :=
  { page := 0, per_page := 10, inviter_id := none, guest_type_id := none,
    start_date := none, end_date := none }

/-- Claim C6 as stated is false: a non-positive `page` does not produce a
400 `ValidationError`.  The route never validates `page`/`per_page`;
`db.paginate` aborts with 404, a different error class. -/
theorem nonpositive_page_counterexample :
    get_guests args6 db3 = .error .notFound := rfl

/-- Claim C6 amended: a listing whose `page` or `per_page` is non-positive
(and which supplies no `start_date`, whose handling raises earlier) fails
with the pagination library's 404 abort — not with a `ValidationError`. -/
theorem nonpositive_page_amended (args : ListArgs) (st : DB)
    (hbad : args.page < 1 ∨ args.per_page < 1)
    (hs : args.start_date = none) :
    get_guests args st = .error .notFound := by
  simp only [get_guests, filtered_rows, hs]
  rcases hbad with h | h
  · rw [if_pos h]
  · by_cases hp : args.page < 1
    · rw [if_pos hp]
    · rw [if_neg hp, if_pos h]

/-- Listing arguments with a non-positive per_page. -/
def args6b : ListArgs :=
  { page := 1, per_page := -1, inviter_id := none, guest_type_id := none,
    start_date := none, end_date := none }

/-- Witness for `nonpositive_page_amended` at `per_page = -1`. -/
theorem nonpositive_page_amended_witness :
    get_guests args6b db3 = .error .notFound :=
  nonpositive_page_amended args6b db3 (Or.inr (by decide)) rfl

/-- Listing arguments supplying only `end_date = 2024-01-05`. -/
def args3a : ListArgs :=
  { page := 1, per_page := 10, inviter_id := none, guest_type_id := none,
    start_date := none, end_date := some "2024-01-05" }

/-- Listing arguments supplying `start_date = 2024-01-01`. -/
def args3b : ListArgs :=
  { page := 1, per_page := 10, inviter_id := none, guest_type_id := none,
    start_date := some "2024-01-01", end_date := some "2024-01-05" }

/-- Claim C3 is violated by the code: the end-date block is guarded by
`if start_date_str:` and both date clauses reference the nonexistent column
`Guest.start_date`.  With only `end_date = 2024-01-05` supplied, the guest
arriving 2024-02-01 — outside the range — is still returned (the filter is
silently skipped); with `start_date` supplied the request raises
`AttributeError` instead of filtering. -/
theorem date_filter_bug :
    get_guests args3a db3
      = .ok { guests := [guest3.to_dict], total_guests := 1,
              prev_page := none, next_page := none } ∧
    guest3.coming_date = ⟨2024, 2, 1⟩ ∧
    get_guests args3b db3 = .error .attributeError :=
  ⟨rfl, rfl, rfl⟩

/-- Claim C10: supplying `inviter_id=0` or `guest_type_id=0` behaves
exactly like omitting the filter — Python's `if inviter_id:` is false for
both `None` and `0`, so no predicate is added. -/
theorem zero_filter_ignored (args : ListArgs) (st : DB) :
    get_guests { args with inviter_id := some 0 } st
      = get_guests { args with inviter_id := none } st ∧
    get_guests { args with guest_type_id := some 0 } st
      = get_guests { args with guest_type_id := none } st :=
  ⟨rfl, rfl⟩

end Roommates
